import Mathlib

/-!
Shallow embedding of the `.claude` hook-script repository (Python) for
claim verification.  Text is modelled as `List Char`; Python dictionaries
read with `.get(key, default)` are modelled as structures with the default
already applied; file-system access is modelled by explicit environment
functions (`name ↦ Option content`), with `none` standing for a missing
file or a read that raises (both are handled identically by the scripts).
-/

namespace ClaudeHooks

abbrev Text := List Char

/-- Shorthand turning a Lean string literal into the `List Char` text model. -/
def lit (s : String) : Text := s.toList

/-- Python `str` whitespace for `strip()`: space, tab, newline, CR, VT, FF. -/
def pySpace (c : Char) : Bool :=
  c = ' ' || c = '\t' || c = '\n' || c = '\x0d' || c = '\x0b' || c = '\x0c'

/-- Python `str.lstrip()` (whitespace form). -/
def pyLStrip (s : Text) : Text := s.dropWhile pySpace

/-- Python `str.rstrip()` (whitespace form). -/
def pyRStrip (s : Text) : Text := (s.reverse.dropWhile pySpace).reverse

/-- Python `str.strip()` (whitespace form). -/
def pyStrip (s : Text) : Text := pyRStrip (pyLStrip s)

/-- Python `str.lower()`; the repository's texts are ASCII. -/
def pyLower (s : Text) : Text := s.map Char.toLower

/-- Python substring test `needle in hay`. -/
def containsSub (needle hay : Text) : Bool :=
  hay.tails.any (fun t => needle.isPrefixOf t)

/-- Python `hay.startswith(needle)`. -/
def pyStartsWith (needle hay : Text) : Bool := needle.isPrefixOf hay

/-- Python `", ".join(parts)` and friends. -/
def joinSep (sep : Text) : List Text → Text
  | [] => []
  | [x] => x
  | x :: rest => x ++ sep ++ joinSep sep rest

/-- Lexicographic (code-point) order on text, as used by Python `sorted`. -/
def lexLe : Text → Text → Bool
  | [], _ => true
  | _ :: _, [] => false
  | a :: as, b :: bs => a < b || (a = b && lexLe as bs)

/-- Stable insertion used to model Python `sorted` on strings. -/
def insertSorted (x : Text) : List Text → List Text
  | [] => [x]
  | y :: ys => if lexLe y x && !lexLe x y then y :: insertSorted x ys else x :: y :: ys

/-- Python `sorted(strings)`. -/
def sortTexts (l : List Text) : List Text := l.foldr insertSorted []

/-!
## Regular-expression engine

The hook scripts trigger on fixed `re.search(pattern, text, re.IGNORECASE)`
checks.  The patterns only use: literal characters, `.`, `\s`, `[..]`
classes, alternation groups, `*`, and `\b`.  `re.IGNORECASE` is modelled by
lowercasing the subject text (all pattern literals are lowercase ASCII).
-/

inductive Re where
  | eps                       -- empty pattern
  | ch (c : Char)             -- literal character
  | anyc                      -- `.`  (does not match a newline; no DOTALL)
  | cls (cs : List Char)      -- character class such as `[sz]`
  | space                     -- `\s`
  | seq (a b : Re)
  | alt (a b : Re)
  | star (r : Re)             -- `r*`
  | wb                        -- `\b`
  deriving Repr

/-- Python `\w` on the ASCII fragment the patterns exercise. -/
def wordChar (c : Char) : Bool := c.isAlphanum || c = '_'

def isBoundary (prev : Option Char) (rest : Text) : Bool :=
  let a := match prev with | none => false | some c => wordChar c
  let b := match rest with | [] => false | c :: _ => wordChar c
  a != b

/-- All ways a pattern can match a prefix of `s`; each result is the last
consumed character (for `\b`) and the remaining input.  `fuel` bounds
`star` unfolding; every `star` iteration must consume input. -/
def mAt : Nat → Re → Option Char → Text → List (Option Char × Text)
  | _, .eps, p, s => [(p, s)]
  | _, .ch c, _, s =>
    match s with
    | [] => []
    | x :: r => if x = c then [(some x, r)] else []
  | _, .anyc, _, s =>
    match s with
    | [] => []
    | x :: r => if x = '\n' then [] else [(some x, r)]
  | _, .cls cs, _, s =>
    match s with
    | [] => []
    | x :: r => if cs.contains x then [(some x, r)] else []
  | _, .space, _, s =>
    match s with
    | [] => []
    | x :: r => if pySpace x then [(some x, r)] else []
  | 0, .seq _ _, _, _ => []
  | f + 1, .seq a b, p, s =>
    (mAt f a p s).flatMap (fun q => mAt f b q.1 q.2)
  | 0, .alt _ _, _, _ => []
  | f + 1, .alt a b, p, s => mAt f a p s ++ mAt f b p s
  | 0, .star _, p, s => [(p, s)]
  | f + 1, .star r, p, s =>
    (p, s) :: (mAt f r p s).flatMap
      (fun q => if q.2.length < s.length then mAt f (.star r) q.1 q.2 else [])
  | _, .wb, p, s => if isBoundary p s then [(p, s)] else []

/-- Structural size of a pattern, used to choose enough fuel. -/
def reSize : Re → Nat
  | .seq a b => reSize a + reSize b + 1
  | .alt a b => reSize a + reSize b + 1
  | .star r => reSize r + 1
  | _ => 1

def searchFrom (r : Re) (fuel : Nat) : Option Char → Text → Bool
  | p, s =>
    !(mAt fuel r p s).isEmpty ||
      match s with
      | [] => false
      | c :: rest => searchFrom r fuel (some c) rest

/-- Python `re.search(r, s) is not None` (no capture information). -/
def reSearch (r : Re) (s : Text) : Bool :=
  searchFrom r ((reSize r + 1) * (s.length + 2)) none s

/-- `check_patterns(text, patterns)` (all scripts): any pattern matches the
text, case-insensitively. -/
def check_patterns (text : Text) (patterns : List Re) : Bool :=
  patterns.any (fun r => reSearch r (pyLower text))

/-- Sequence a list of patterns. -/
def rseq (l : List Re) : Re := l.foldr .seq .eps

/-- Literal string pattern. -/
def rstr (s : String) : Re := rseq (s.toList.map .ch)

/-- Alternation group `(a|b|...)`. -/
def ralt : List Re → Re
  | [] => .eps
  | [r] => r
  | r :: rest => .alt r (ralt rest)

/-- `\s+`. -/
def rspaces : Re := .seq .space (.star .space)

/-- `.*`. -/
def rdotstar : Re := .star .anyc

end ClaudeHooks
namespace ClaudeHooks

/-!
## Trigger pattern tables

Translated from the pattern-list constants of
`src/hooks/workflow-orchestrator.py` (identical lists appear in
`src/Library/macos/hooks/workflow-orchestrator.py`, which lacks only
`PARALLEL_PATTERNS`).
-/

/-- `DEBUG_PATTERNS` (workflow-orchestrator.py lines 57-62). -/
def DEBUG_PATTERNS : List Re :=
  [ rseq [.wb, ralt [rstr "debug", rstr "debugging", rstr "bug"], .wb],
    rseq [.wb, ralt [rseq [rstr "why", rdotstar, rstr "not work"],
                     rseq [rstr "what", rdotstar, rstr "wrong"],
                     rstr "not working"], .wb],
    rseq [.wb, ralt [rstr "crash", rstr "exception", rstr "error",
                     rstr "failed", rstr "^^^"], .wb],
    rseq [.wb, ralt [rseq [rstr "build", rdotstar, rstr "fail"],
                     rseq [rstr "compile", rdotstar, rstr "error"],
                     rseq [rstr "runtime", rdotstar, rstr "error"]], .wb] ]

/-- `INVESTIGATION_PATTERNS` (workflow-orchestrator.py lines 65-70). -/
def INVESTIGATION_PATTERNS : List Re :=
  [ rseq [.wb, ralt [rstr "investigate", rstr "research", rstr "analyze",
                     rstr "examine", rstr "explore", rstr "understand"], .wb],
    rseq [.wb, ralt [rseq [rstr "how does", rdotstar, rstr "work"],
                     rstr "figure out", rstr "explain", rstr "find out"], .wb],
    rseq [.wb, ralt [rstr "code review", rstr "audit", rstr "inspect"], .wb],
    rseq [.wb, ralt [rseq [rstr "data", rdotstar, rstr "flow"],
                     rstr "architecture",
                     rseq [rstr "system", rdotstar, rstr "design"]], .wb] ]

/-- `IMPLEMENTATION_PATTERNS` (workflow-orchestrator.py lines 73-79). -/
def IMPLEMENTATION_PATTERNS : List Re :=
  [ rseq [.wb, ralt [rstr "implement", rstr "build", rstr "create",
                     rstr "develop", rstr "code", rstr "write", rstr "add"],
          rdotstar, .wb,
          ralt [rstr "feature", rstr "function", rstr "component",
                rstr "service", rstr "module", rstr "class", rstr "view",
                rstr "entity"], .wb],
    rseq [.wb, ralt [rstr "make", rstr "build", rstr "create", rstr "develop"],
          rspaces, ralt [rstr "this", rstr "it", rstr "the"], .wb],
    rseq [.wb, ralt [rstr "let\x27s", rstr "can you", rstr "please"], rspaces,
          ralt [rstr "implement", rstr "build", rstr "create", rstr "develop",
                rstr "code", rstr "write"], .wb],
    rseq [.wb, rstr "start ",
          ralt [rstr "implementing", rstr "building", rstr "coding",
                rstr "developing"], .wb],
    rseq [.wb, ralt [rstr "fix", rstr "refactor", rstr "optimize",
                     rstr "deploy", rstr "update", rstr "modify"], .wb] ]

/-- `PLANNING_PATTERNS` (workflow-orchestrator.py lines 82-88). -/
def PLANNING_PATTERNS : List Re :=
  [ rseq [.wb, ralt [rstr "make", rstr "create", rstr "develop", rstr "write",
                     rstr "build"], rdotstar, .wb, rstr "plan", .wb],
    rseq [.wb, rstr "plan", rspaces, ralt [rstr "out", rstr "for", rstr "the"], .wb],
    rseq [.wb, rstr "planning", rspaces, ralt [rstr "out", rstr "for", rstr "the"], .wb],
    rseq [.wb, ralt [rstr "implementation", rstr "feature", rstr "system",
                     rstr "architecture"], rspaces, rstr "plan", .wb],
    rseq [.wb, ralt [rstr "design a plan", rstr "map out", rstr "architect"], .wb] ]

/-- `BRAINSTORMING_PATTERNS` (workflow-orchestrator.py lines 91-93). -/
def BRAINSTORMING_PATTERNS : List Re :=
  [ rseq [.wb, ralt [rstr "brainstorm", rstr "brainstorming"], .wb] ]

/-- `DEEP_RESEARCH_PATTERNS` (workflow-orchestrator.py lines 96-98). -/
def DEEP_RESEARCH_PATTERNS : List Re :=
  [ rseq [.wb, rstr "deep research", .wb] ]

/-- `PARALLEL_PATTERNS` (workflow-orchestrator.py lines 101-105; only in the
top-level hook). -/
def PARALLEL_PATTERNS : List Re :=
  [ rseq [.wb, ralt [rstr "parallel", rstr "in parallel", rstr "concurrently",
                     rstr "simultaneously"], .wb],
    rseq [.wb, ralt [rstr "multiple agents", rstr "spawn agents",
                     rstr "launch agents"], .wb],
    rseq [.wb, ralt [rstr "batch", rstr "batches",
                     rseq [rstr "paralleli", .cls ['s', 'z'], rstr "e"],
                     rseq [rstr "paralleli", .cls ['s', 'z'], rstr "ation"]], .wb] ]

end ClaudeHooks
namespace ClaudeHooks

/-!
## Session cache (`/tmp/claude-workflow-<md5(cwd)>-<ppid>.json`)

A session file is modelled by its `mtime` and the parse result of its JSON
body: `injected = none` models a file whose read or JSON parse raises
(the scripts catch the exception and fall back to the empty set), while
`injected = some l` models `json.load(f).get("injected", [])`.
-/

structure SessionFile where
  mtime : Int
  injected : Option (List Text)

/-- `SESSION_TIMEOUT = 14400` (4 hours), only present in
`src/Library/macos/hooks/workflow-orchestrator.py`. -/
def SESSION_TIMEOUT : Int := 14400

/-- `get_injected_guides` of the top-level `src/hooks/workflow-orchestrator.py`
(lines 28-36): no freshness check at all — any existing, parseable file is
used regardless of its age. -/
def get_injected_guides (file : Option SessionFile) : List Text :=
  match file with
  | none => []
  | some f => f.injected.getD []

/-- `get_injected_guides` of `src/Library/macos/hooks/workflow-orchestrator.py`
(lines 29-39): the file is only consulted when
`time.time() - st_mtime < SESSION_TIMEOUT`. -/
def get_injected_guides_library (now : Int) (file : Option SessionFile) : List Text :=
  match file with
  | none => []
  | some f =>
    if now - f.mtime < SESSION_TIMEOUT then f.injected.getD [] else []

/-!
## Workflow orchestrator

`load_guide(cwd, name)` opens `{cwd}/.claude/guides/{name}.md` and returns
`None` on any exception; the environment below maps the guide name directly
to `Option` content.
-/

abbrev GuideEnv := Text → Option Text

def load_guide (env : GuideEnv) (name : Text) : Option Text := env name

/-- Common shape of the prompt-generator f-strings: all of them are
`"\n<system-reminder>" ++ header ++ "\n\n<" ++ tag ++ ">\n" ++ content ++
"\n</" ++ tag ++ ">\n\n</system-reminder>\n"`. -/
def wrapPrompt (header tag content : Text) : Text :=
  lit "\n<system-reminder>" ++ header ++ lit "\n\n<" ++ tag ++ lit ">\n" ++
    content ++ lit "\n</" ++ tag ++ lit ">\n\n</system-reminder>\n"

/-- Shared `if not content: return None` gate of every prompt generator:
a missing/unreadable guide file and an empty guide file both yield `None`. -/
def genPrompt (env : GuideEnv) (name : Text) (header tag : Text) : Option Text :=
  match load_guide env name with
  | none => none
  | some content =>
    if content.isEmpty then none else some (wrapPrompt header tag content)

def get_foundation_prompt (env : GuideEnv) : Option Text :=
  genPrompt env (lit "always-active/foundation")
    (lit "Foundation professional development mode is active.")
    (lit "developer-principles")

def get_debug_prompt (env : GuideEnv) : Option Text :=
  genPrompt env (lit "debug")
    (lit "The user has mentioned a key word or phrase that triggers this reminder for debugging.")
    (lit "debugging-workflow")

def get_investigation_prompt (env : GuideEnv) : Option Text :=
  genPrompt env (lit "investigation")
    (lit "The user has mentioned a key word or phrase that triggers this reminder for investigation.")
    (lit "investigation-workflow")

def get_implementation_prompt (env : GuideEnv) : Option Text :=
  genPrompt env (lit "implementation")
    (lit "The user has mentioned implementing or building a feature/component.")
    (lit "implementation-best-practices")

def get_planning_prompt (env : GuideEnv) : Option Text :=
  genPrompt env (lit "planning")
    (lit "The user has mentioned creating or making a plan for development. Here\x27s some advice for making plans:")
    (lit "planning-workflow")

def get_brainstorming_prompt (env : GuideEnv) : Option Text :=
  genPrompt env (lit "brainstorming")
    (lit "The user has mentioned brainstorming or collaborative discovery.")
    (lit "brainstorming-workflow")

def get_deep_research_prompt (env : GuideEnv) : Option Text :=
  genPrompt env (lit "deep-research")
    (lit "The user has requested deep research or systematic investigation.")
    (lit "deep-research-workflow")

def get_parallel_prompt (env : GuideEnv) : Option Text :=
  genPrompt env (lit "parallel")
    (lit "The user has mentioned parallel execution or agent delegation.")
    (lit "parallel-execution-workflow")

/-- One invocation's observable result: the `triggered` list of
`(name, prompt_text)` pairs, the list written to the session file
(`none` = the file is not touched), and the printed output as the
segments later joined with `"\n\n"` (`none` = nothing printed). -/
structure StepResult where
  triggered : List (Text × Text)
  saved : Option (List Text)
  printed : Option (List Text)

def optBlock (name : Text) : Option Text → List (Text × Text)
  | some t => [(name, t)]
  | none => []

/-- Shared shape of each orchestrator category check:
`if "NAME" not in already_injected and check_patterns(prompt, PATTERNS):`
followed by `if generated_prompt: triggered.append((name, prompt))`.
The always-injected FOUNDATION category uses `matched := true`. -/
def gateBlock (already : List Text) (name : Text) (matched : Bool)
    (gen : Option Text) : List (Text × Text) :=
  if name ∈ already then []
  else if matched then optBlock name gen
  else []

/-- Announcement instruction of the top-level orchestrator (lines 304-327). -/
def orchestratorInstruction (trigger_names already : List Text) : Text :=
  let previously_active := already.filter (fun g => g != lit "FOUNDATION")
  let announcement_parts :=
    [lit "**New:** " ++ joinSep (lit ", ") trigger_names] ++
      (if previously_active.isEmpty then []
       else [lit "**Already active:** " ++
               joinSep (lit ", ") (sortTexts previously_active)])
  lit "<system-reminder>\nIMPORTANT: Workflow guides have been injected for this request.\n\nYou MUST announce this to the user at the START of your response using this exact format:\n📋 Guides: " ++
    joinSep (lit " | ") announcement_parts ++
    lit "\n\nThis announcement is mandatory - do not skip it. After the announcement, proceed with your response normally.\n</system-reminder>\n"

/-- The `triggered` list collected by the eight category checks of the
top-level orchestrator (lines 249-297), in declaration order. -/
def orchestratorTriggered (env : GuideEnv) (prompt : Text)
    (already : List Text) : List (Text × Text) :=
  gateBlock already (lit "FOUNDATION") true (get_foundation_prompt env) ++
  gateBlock already (lit "BRAINSTORMING")
    (check_patterns prompt BRAINSTORMING_PATTERNS) (get_brainstorming_prompt env) ++
  gateBlock already (lit "DEEP_RESEARCH")
    (check_patterns prompt DEEP_RESEARCH_PATTERNS) (get_deep_research_prompt env) ++
  gateBlock already (lit "PLANNING")
    (check_patterns prompt PLANNING_PATTERNS) (get_planning_prompt env) ++
  gateBlock already (lit "IMPLEMENTATION")
    (check_patterns prompt IMPLEMENTATION_PATTERNS) (get_implementation_prompt env) ++
  gateBlock already (lit "DEBUG")
    (check_patterns prompt DEBUG_PATTERNS) (get_debug_prompt env) ++
  gateBlock already (lit "INVESTIGATION")
    (check_patterns prompt INVESTIGATION_PATTERNS) (get_investigation_prompt env) ++
  gateBlock already (lit "PARALLEL")
    (check_patterns prompt PARALLEL_PATTERNS) (get_parallel_prompt env)

/-- Main body of `src/hooks/workflow-orchestrator.py` (lines 241-336) for one
invocation, given the guide files and the already-injected set read from the
session cache.  Python's `set` union in `newly_injected` is modelled as an
append of the not-yet-present names (same membership). -/
def stepOrchestrator (env : GuideEnv) (prompt : Text) (already : List Text) :
    StepResult :=
  let triggered := orchestratorTriggered env prompt already
  if triggered.isEmpty then ⟨triggered, none, none⟩
  else
    let names := triggered.map Prod.fst
    let newly := already ++ names.filter (fun n => !already.contains n)
    ⟨triggered, some newly,
      some (orchestratorInstruction names already :: triggered.map Prod.snd)⟩

/-- Announcement instruction of the Library/macos orchestrator (lines 283-288). -/
def libraryInstruction (trigger_names : List Text) : Text :=
  lit "<system-reminder>\nIMPORTANT: Workflow guides active: " ++
    joinSep (lit ", ") trigger_names ++
    lit "\n\nThese guides have been loaded to provide context-aware assistance for your request.\n</system-reminder>\n"

/-- The `triggered` list of the Library/macos orchestrator: the same seven
category checks, without `PARALLEL`. -/
def libraryTriggered (env : GuideEnv) (prompt : Text)
    (already : List Text) : List (Text × Text) :=
  gateBlock already (lit "FOUNDATION") true (get_foundation_prompt env) ++
  gateBlock already (lit "BRAINSTORMING")
    (check_patterns prompt BRAINSTORMING_PATTERNS) (get_brainstorming_prompt env) ++
  gateBlock already (lit "DEEP_RESEARCH")
    (check_patterns prompt DEEP_RESEARCH_PATTERNS) (get_deep_research_prompt env) ++
  gateBlock already (lit "PLANNING")
    (check_patterns prompt PLANNING_PATTERNS) (get_planning_prompt env) ++
  gateBlock already (lit "IMPLEMENTATION")
    (check_patterns prompt IMPLEMENTATION_PATTERNS) (get_implementation_prompt env) ++
  gateBlock already (lit "DEBUG")
    (check_patterns prompt DEBUG_PATTERNS) (get_debug_prompt env) ++
  gateBlock already (lit "INVESTIGATION")
    (check_patterns prompt INVESTIGATION_PATTERNS) (get_investigation_prompt env)

/-- Main body of `src/Library/macos/hooks/workflow-orchestrator.py`
(lines 222-298). -/
def stepLibraryOrchestrator (env : GuideEnv) (prompt : Text)
    (already : List Text) : StepResult :=
  let triggered := libraryTriggered env prompt already
  if triggered.isEmpty then ⟨triggered, none, none⟩
  else
    let names := triggered.map Prod.fst
    let newly := already ++ names.filter (fun n => !already.contains n)
    ⟨triggered, some newly,
      some (libraryInstruction names :: triggered.map Prod.snd)⟩

/-- Injected-set state after an invocation: the session file is rewritten
only when something triggered. -/
def nextInjected (already : List Text) (r : StepResult) : List Text :=
  r.saved.getD already

/-- Repeated invocations of the top-level orchestrator within one session,
threading the session file through. -/
def runSeq (env : GuideEnv) : List Text → List Text → List StepResult
  | [], _ => []
  | p :: ps, already =>
    let r := stepOrchestrator env p already
    r :: runSeq env ps (nextInjected already r)

/-- How many of the printed guide blocks are the DEBUG block. -/
def debugCount (r : StepResult) : Nat :=
  r.triggered.countP (fun q => q.1 == lit "DEBUG")

/-- Fixed declaration order of the top-level orchestrator's categories. -/
def ORCHESTRATOR_ORDER : List Text :=
  [lit "FOUNDATION", lit "BRAINSTORMING", lit "DEEP_RESEARCH", lit "PLANNING",
   lit "IMPLEMENTATION", lit "DEBUG", lit "INVESTIGATION", lit "PARALLEL"]

/-- Spec-side description of C3 ("the debug guide block appears in output
exactly once, deduplicated per session id"): for each prompt, 1 if it is the
first debug-matching prompt of the session, else 0. -/
def specDebugMarks : List Text → Bool → List Nat
  | [], _ => []
  | p :: ps, seen =>
    (if !seen && check_patterns p DEBUG_PATTERNS then 1 else 0)
      :: specDebugMarks ps (seen || check_patterns p DEBUG_PATTERNS)


end ClaudeHooks
namespace ClaudeHooks

/-!
## Workspace scaffolder (`src/scripts/init-workspace.py`)

The filesystem is abstracted as the operations the script performs:
`pathlib` glob results, `read_text` (with `none` for a raising read) and
existence checks.  `Path.suffix == '.xcodeproj'` is modelled as a suffix
test on the path text.
-/

structure WorkspaceFS where
  glob : Text → List Text
  read : Text → Option Text
  existsAt : Text → Bool

/-- `visionos_indicators['strong']` glob patterns (lines 47-56). -/
def VISIONOS_STRONG_GLOBS : List Text :=
  [lit "**/*.xcodeproj", lit "**/*.xcworkspace", lit "**/RealityKitContent/**"]

/-- `ios_indicators['medium']` glob patterns (lines 27-31). -/
def IOS_MEDIUM_GLOBS : List Text :=
  [lit "**/*.swift", lit "**/Podfile", lit "**/Package.swift"]

def STREAMDECK_STRONG_GLOBS : List Text :=
  [lit "**/*.sdPlugin", lit "**/*.sdPlugin/manifest.json"]

def STREAMDECK_MEDIUM_GLOBS : List Text :=
  [lit "**/package.json", lit "**/rollup.config.mjs", lit "**/src/**/*.ts"]

def WEBDEV_STRONG_GLOBS : List Text :=
  [lit "**/next.config.js", lit "**/next.config.ts", lit "**/next.config.mjs",
   lit "**/app/**/page.tsx", lit "**/app/**/layout.tsx"]

def WEBDEV_MEDIUM_GLOBS : List Text :=
  [lit "**/package.json", lit "**/tsconfig.json",
   lit "**/tailwind.config.js", lit "**/tailwind.config.ts"]

def DEFAULT_GLOBS : List Text :=
  [lit "**/*.js", lit "**/*.jsx", lit "**/*.ts", lit "**/*.tsx",
   lit "**/*.py", lit "**/*.java", lit "**/*.go", lit "**/*.rs",
   lit "**/package.json", lit "**/requirements.txt",
   lit "**/Cargo.toml", lit "**/go.mod"]

def MACOS_PBX_INDICATORS : List Text :=
  [lit "SDKROOT = macosx", lit "MACOSX_DEPLOYMENT_TARGET", lit "\"macOS\"",
   lit "SUPPORTED_PLATFORMS = macosx", lit "PRODUCT_BUNDLE_IDENTIFIER.*macos"]

def IOS_PBX_INDICATORS : List Text :=
  [lit "SDKROOT = iphoneos", lit "IPHONEOS_DEPLOYMENT_TARGET", lit "\"iOS\"",
   lit "SUPPORTED_PLATFORMS = iphoneos"]

def MACOS_FRAMEWORKS : List Text :=
  [lit "import AppKit", lit "import Cocoa", lit "NSWindow", lit "NSView",
   lit "NSViewController", lit "NSApplication"]

def IOS_FRAMEWORKS : List Text :=
  [lit "import UIKit", lit "UIViewController", lit "UIView",
   lit "UIApplication", lit "UIWindow"]

/-- The `swift_files[:10]` sampling loop inside the visionOS strong-indicator
check (lines 117-129); returns `(has_visionos_frameworks, has_ios_frameworks)`
(the loop breaks as soon as a visionOS framework is seen). -/
def scanSwiftSample (fs : WorkspaceFS) : List Text → Bool → Bool × Bool
  | [], has_ios => (false, has_ios)
  | f :: rest, has_ios =>
    match fs.read f with
    | none => scanSwiftSample fs rest has_ios
    | some content =>
      if containsSub (lit "import RealityKit") content ||
          containsSub (lit "WindowGroup \x7b ImmersiveSpace") content then
        (true, has_ios)
      else
        scanSwiftSample fs rest
          (has_ios || containsSub (lit "import UIKit") content ||
            containsSub (lit "UIViewController") content ||
            containsSub (lit "UIView") content)

/-- The `for pattern, _ in visionos_indicators['strong']` loop
(lines 105-136); `true` means an early `return 'visionos'` (a `break` and a
normal loop exit both continue into the Xcode-project section). -/
def visStrongLoop (fs : WorkspaceFS) : List Text → Bool
  | [] => false
  | pattern :: rest =>
    if (fs.glob pattern).isEmpty then visStrongLoop fs rest
    else if containsSub (lit "RealityKitContent") pattern then true
    else
      let swift_files := fs.glob (lit "**/*.swift")
      if swift_files.isEmpty then visStrongLoop fs rest
      else
        let r := scanSwiftSample fs (swift_files.take 10) false
        if r.1 then true
        else if r.2 then false  -- `break`: fall through to the Xcode section
        else visStrongLoop fs rest

/-- `project.pbxproj` platform-identifier scan (lines 150-178); returns
`(has_macos_project, has_ios_project)`. -/
def projFlags (fs : WorkspaceFS) : List Text → Bool → Bool → Bool × Bool
  | [], hm, hi => (hm, hi)
  | project :: rest, hm, hi =>
    if (lit ".xcodeproj").isSuffixOf project then
      let pbxproj := project ++ lit "/project.pbxproj"
      if fs.existsAt pbxproj then
        match fs.read pbxproj with
        | none => projFlags fs rest hm hi
        | some content =>
          projFlags fs rest
            (hm || MACOS_PBX_INDICATORS.any (fun i => containsSub i content))
            (hi || IOS_PBX_INDICATORS.any (fun i => containsSub i content))
      else projFlags fs rest hm hi
    else projFlags fs rest hm hi

/-- The check of ALL Swift files for framework usage (lines 181-214); breaks
once both flags are set. -/
def fwFlags (fs : WorkspaceFS) : List Text → Bool → Bool → Bool × Bool
  | [], hm, hi => (hm, hi)
  | f :: rest, hm, hi =>
    match fs.read f with
    | none => fwFlags fs rest hm hi
    | some c =>
      let hm2 := hm || MACOS_FRAMEWORKS.any (fun fw => containsSub fw c)
      let hi2 := hi || IOS_FRAMEWORKS.any (fun fw => containsSub fw c)
      if hm2 && hi2 then (hm2, hi2) else fwFlags fs rest hm2 hi2

/-- `package.json` content scoring used by the Stream Deck / webdev medium
indicators: +2 and break on the first file containing the marker. -/
def pkgScore (fs : WorkspaceFS) (found : Text → Bool) : List Text → Nat
  | [] => 0
  | m :: rest =>
    match fs.read m with
    | none => pkgScore fs found rest
    | some c => if found c then 2 else pkgScore fs found rest

/-- `streamdeck_indicators['medium']` scoring loop (lines 265-282). -/
def sdMediumScore (fs : WorkspaceFS) : List Text → Nat
  | [] => 0
  | p :: rest =>
    let ms := fs.glob p
    (if ms.isEmpty then 0
     else if containsSub (lit "package.json") p then
       pkgScore fs (fun c => containsSub (lit "@elgato/streamdeck") c) ms
     else 1) + sdMediumScore fs rest

/-- `webdev_indicators['medium']` scoring loop (lines 301-318). -/
def wdMediumScore (fs : WorkspaceFS) : List Text → Nat
  | [] => 0
  | p :: rest =>
    let ms := fs.glob p
    (if ms.isEmpty then 0
     else if containsSub (lit "package.json") p then
       pkgScore fs
         (fun c => containsSub (lit "react") (pyLower c) ||
                   containsSub (lit "next") (pyLower c)) ms
     else 1) + wdMediumScore fs rest

/-- Tail of `detect_domain` after the Xcode-project section (lines 245-341). -/
def detectTail (fs : WorkspaceFS) : Text :=
  if IOS_MEDIUM_GLOBS.any
      (fun p => !(fs.glob p).isEmpty && containsSub (lit "Podfile") p) then
    lit "ios"
  else if 0 < STREAMDECK_STRONG_GLOBS.countP (fun p => !(fs.glob p).isEmpty) then
    lit "streamdeck"
  else if 2 ≤ sdMediumScore fs STREAMDECK_MEDIUM_GLOBS then
    lit "streamdeck"
  else if 0 < WEBDEV_STRONG_GLOBS.countP (fun p => !(fs.glob p).isEmpty) then
    lit "webdev"
  else if 2 ≤ wdMediumScore fs WEBDEV_MEDIUM_GLOBS then
    lit "webdev"
  else if 0 < DEFAULT_GLOBS.countP (fun p => !(fs.glob p).isEmpty) then
    lit "default"
  else
    lit "default"

/-- `detect_domain(workspace_path)` (init-workspace.py lines 16-341). -/
def detect_domain (fs : WorkspaceFS) : Text :=
  if visStrongLoop fs VISIONOS_STRONG_GLOBS then lit "visionos"
  else
    let xcode_projects :=
      fs.glob (lit "**/*.xcodeproj") ++ fs.glob (lit "**/*.xcworkspace")
    let decided : Option Text :=
      if xcode_projects.isEmpty then none
      else
        let pf := projFlags fs xcode_projects false false
        let swift_files := fs.glob (lit "**/*.swift")
        let fw := if swift_files.isEmpty then (false, false)
                  else fwFlags fs swift_files false false
        if fw.1 && !fw.2 then some (lit "macos")
        else if fw.2 && !fw.1 then some (lit "ios")
        else if fw.1 && fw.2 then
          some (if pf.1 then lit "macos" else lit "ios")
        else if pf.1 && !pf.2 then some (lit "macos")
        else if pf.2 && !pf.1 then some (lit "ios")
        else none
    match decided with
    | some d => d
    | none => detectTail fs

end ClaudeHooks
namespace ClaudeHooks

/-!
## `.gitignore` setup (`setup_gitignore`, init-workspace.py lines 508-561)

File content is `List Char`; `str.splitlines()` is modelled as splitting on
`'\n'` (a carriage return is treated as an ordinary character, which the
repository's templates never contain).
-/

/-- `content.splitlines()` / `content.split('\n')`. -/
def splitLines : Text → List Text
  | [] => [[]]
  | c :: rest =>
    if c = '\n' then [] :: splitLines rest
    else
      match splitLines rest with
      | [] => [[c]]
      | l :: ls => (c :: l) :: ls

/-- `line.strip()` when it is non-empty and not a comment, else nothing:
the per-line step of both `template_lines` and `existing_patterns`. -/
def gitignoreLineFilter (l : Text) : Option Text :=
  let s := pyStrip l
  if !s.isEmpty && !pyStartsWith (lit "#") s then some s else none

/-- The set of (stripped, non-empty, non-comment) pattern lines of a
`.gitignore` body, as computed for both `template_lines` and
`existing_patterns`. -/
def gitignorePatterns (content : Text) : List Text :=
  (splitLines content).filterMap gitignoreLineFilter

/-- `new_patterns = template_lines - existing_patterns`. -/
def newPatterns (template existing : Text) : List Text :=
  (gitignorePatterns template).filter
    (fun p => !(gitignorePatterns existing).contains p)

/-- Python `str.index(needle)` (first occurrence; the source only calls it on
lines of the searched string, so the occurrence exists). -/
def pyIndex (needle : Text) : Text → Nat
  | [] => 0
  | hay@(_ :: t) => if needle.isPrefixOf hay then 0 else pyIndex needle t + 1

/-- The template lines appended by the merge branch (lines 551-558): pattern
lines whose stripped form is a new pattern, plus comment headers within 200
characters of some new pattern in the template. -/
def appendedGitignoreLines (template existing : Text) : List Text :=
  let np := newPatterns template existing
  (splitLines template).filter (fun line =>
    let stripped := pyStrip line
    if !stripped.isEmpty && !pyStartsWith (lit "#") stripped then
      np.contains stripped
    else if pyStartsWith (lit "#") stripped then
      np.any (fun p =>
        containsSub p ((template.drop (pyIndex line template)).take 200))
    else false)

/-- `f.write(line + "\n")` for each selected line. -/
def joinNL : List Text → Text
  | [] => []
  | l :: rest => l ++ '\n' :: joinNL rest

/-- `setup_gitignore`: the resulting `.gitignore` content, given the domain
template (`none` = no template file) and the existing file (`none` = no
`.gitignore` yet). -/
def setup_gitignore (template existing : Option Text) : Text :=
  match template with
  | none =>
    match existing with
    | none => lit ".worktrees/\n"
    | some c =>
      if containsSub (lit ".worktrees") c then c
      else c ++ lit "\n.worktrees/\n"
  | some t =>
    match existing with
    | none => t
    | some c =>
      if (newPatterns t c).isEmpty then c
      else
        c ++ lit "\n\n# Added by /init-workspace\n" ++
          joinNL (appendedGitignoreLines t c)

/-!
## Domain marker (`create_domain_marker`, init-workspace.py lines 460-483)

`domain.json` is modelled as the structure this function writes;
`load_domain_config` returning `{}` (missing or unparseable file) is the
`none` case.  Timestamps (`datetime.utcnow().isoformat() + "Z"`) are opaque
text.
-/

structure DomainConfig where
  domain : Text
  initialized : Text
  last_updated : Text
  build_settings_configured : Bool
  debug_icons_generated : Bool
  template_versions : List (Text × Text)
  deriving DecidableEq

/-- The `config_state` dict `main()` passes in, whose keys overwrite the
preserved fields via `domain_data.update(config)`. -/
structure ConfigState where
  build_settings_configured : Bool
  debug_icons_generated : Bool
  template_versions : List (Text × Text)
  deriving DecidableEq

def create_domain_marker (existing : Option DomainConfig) (now : Text)
    (domain : Text) (config : Option ConfigState) : DomainConfig :=
  let base : DomainConfig :=
    { domain := domain
      initialized := match existing with | none => now | some e => e.initialized
      last_updated := now
      build_settings_configured :=
        match existing with | none => false | some e => e.build_settings_configured
      debug_icons_generated :=
        match existing with | none => false | some e => e.debug_icons_generated
      template_versions :=
        match existing with | none => [] | some e => e.template_versions }
  match config with
  | none => base
  | some c =>
    { base with
      build_settings_configured := c.build_settings_configured
      debug_icons_generated := c.debug_icons_generated
      template_versions := c.template_versions }

/-!
## Domain file installation (`clean_domain_files` + `copy_domain_files`,
init-workspace.py lines 384-406)

The workspace `.claude` directory and the library domain directory are maps
from relative path to file content.  `clean_domain_files` removes the six
domain folders; `copy_domain_files` recreates each folder that exists in the
library as an exact copy.
-/

def DOMAIN_FOLDERS : List Text :=
  [lit "agents", lit "commands", lit "file-templates", lit "guides",
   lit "hooks", lit "output-styles"]

def inDomainFolder (p : Text) : Bool :=
  DOMAIN_FOLDERS.any (fun f => pyStartsWith (f ++ lit "/") p)

/-- `clean_domain_files` followed by `copy_domain_files`: inside the six
folders the workspace becomes the library content, elsewhere it is
untouched. -/
def installDomainFiles (library : Text → Option Text)
    (workspace : Text → Option Text) : Text → Option Text :=
  fun p => if inDomainFolder p then library p else workspace p

end ClaudeHooks

namespace ClaudeHooks

/-!
## Top-level stdin handling of each hook script (for the error-handling
claims)

`StdinData` classifies what arrives on stdin; each script's behaviour on it
is `some (exitCode, stderrMessage)` when the script exits before its main
logic, `none` when it proceeds.  After a successful parse every script's
remaining errors are caught and it exits 0.
-/

inductive StdinData where
  | blank        -- empty / whitespace-only stdin
  | invalidJson  -- non-empty stdin that is not valid JSON
  | valid        -- a JSON object
  deriving DecidableEq

/-- `src/hooks/workflow-orchestrator.py` lines 235-239 (identical handling in
`src/Library/*/hooks/custom-reminder.py` and the `unified-*` hooks):
`except json.JSONDecodeError: print(..., file=sys.stderr); sys.exit(1)`.
`json.load` of empty input also raises `JSONDecodeError`. -/
def orchestratorParseExit : StdinData → Option (Nat × Bool)
  | .blank => some (1, true)
  | .invalidJson => some (1, true)
  | .valid => none

/-- `src/hooks/metrics-tracker.py` lines 66-74: blank stdin exits 0, and the
`except (json.JSONDecodeError, Exception)` clause also exits 0, printing
nothing. -/
def metricsParseExit : StdinData → Option (Nat × Bool)
  | .blank => some (0, false)
  | .invalidJson => some (0, false)
  | .valid => none

/-- `src/hooks/git-hook.py` lines 22-25: `json.load(sys.stdin)` is not
guarded, so malformed input propagates to the interpreter, which prints a
traceback to stderr and exits 1. -/
def gitHookParseExit : StdinData → Option (Nat × Bool)
  | .blank => some (1, true)
  | .invalidJson => some (1, true)
  | .valid => none

/-- `src/hooks/parallel.py`: the whole `main` body sits in
`try: ... except Exception: logging.exception(...)`, so malformed stdin is
logged to `/tmp/claude_supervisor.log` (not stderr) and the script falls off
the end of `main`, exiting 0. -/
def parallelParseExit : StdinData → Option (Nat × Bool)
  | .blank => some (0, false)
  | .invalidJson => some (0, false)
  | .valid => none

/-- Exit code of the workflow orchestrator: 1 only for the top-level JSON
parse; every later error is swallowed inside `try/except` helpers and the
script reaches `sys.exit(0)`. -/
def orchestratorExitCode : StdinData → Nat
  | .blank => 1
  | .invalidJson => 1
  | .valid => 0

/-- Exit code of the metrics tracker: always 0. -/
def metricsExitCode : StdinData → Nat
  | _ => 0

end ClaudeHooks
namespace ClaudeHooks

/-!
## Custom reminder hook (`src/Library/macos/hooks/custom-reminder.py`)

Unlike the workflow orchestrator, this hook keeps no session state and its
guide loaders fall back to baked-in string constants when the workspace
guide file is absent.  The multi-kilobyte fallback prose constants are
abbreviated here to their opening line; no claim depends on their content,
only on which constant a loader falls back to.
-/

/-- `DEBUG_PROMPT_FALLBACK` (content abbreviated). -/
def DEBUG_PROMPT_FALLBACK : Text :=
  lit "1. **Understand the codebase** - Read relevant files/entities/assets to understand the codebase, and look up documentation for frameworks and libraries."

/-- `INVESTIGATION_PROMPT_FALLBACK` (content abbreviated). -/
def INVESTIGATION_PROMPT_FALLBACK : Text :=
  lit "1. **Assess scope**: Read provided files directly. Use code-finder or code-finder-advanced for unknown/large codebases, direct tools (Read/Grep/Glob) for simple searches."

/-- `IMPLEMENTATION_PROMPT_FALLBACK` (content abbreviated). -/
def IMPLEMENTATION_PROMPT_FALLBACK : Text :=
  lit "Before implementing macOS features, ensure you follow these critical practices:"

/-- `PLANNING_PROMPT_FALLBACK` (content abbreviated). -/
def PLANNING_PROMPT_FALLBACK : Text :=
  lit "**Effective Implementation Planning Guide**"

/-- `load_debug_guide(cwd)`: reads `.claude/guides/debug.md`, falling back to
the constant on any exception. -/
def load_debug_guide (env : GuideEnv) : Text :=
  (env (lit "debug")).getD DEBUG_PROMPT_FALLBACK

def load_investigation_guide (env : GuideEnv) : Text :=
  (env (lit "investigation")).getD INVESTIGATION_PROMPT_FALLBACK

def load_implementation_guide (env : GuideEnv) : Text :=
  (env (lit "implementation")).getD IMPLEMENTATION_PROMPT_FALLBACK

/-- `load_planning_guide` falls back to `IMPLEMENTATION_PROMPT_FALLBACK`
(sic, as in the source). -/
def load_planning_guide (env : GuideEnv) : Text :=
  (env (lit "planning")).getD IMPLEMENTATION_PROMPT_FALLBACK

/-- `load_parallel_guide` returns `f"Error loading parallel guide: {e}"` on
an exception; the exception text is abstracted away. -/
def load_parallel_guide (env : GuideEnv) : Text :=
  (env (lit "parallel")).getD (lit "Error loading parallel guide: ")

/-- `IMPLEMENTATION_PATTERNS` of custom-reminder.py: like the orchestrator's
but without `entity` and without the `fix|refactor|...` pattern. -/
def CR_IMPLEMENTATION_PATTERNS : List Re :=
  [ rseq [.wb, ralt [rstr "implement", rstr "build", rstr "create",
                     rstr "develop", rstr "code", rstr "write", rstr "add"],
          rdotstar, .wb,
          ralt [rstr "feature", rstr "function", rstr "component",
                rstr "service", rstr "module", rstr "class", rstr "view"], .wb],
    rseq [.wb, ralt [rstr "make", rstr "build", rstr "create", rstr "develop"],
          rspaces, ralt [rstr "this", rstr "it", rstr "the"], .wb],
    rseq [.wb, ralt [rstr "let\x27s", rstr "can you", rstr "please"], rspaces,
          ralt [rstr "implement", rstr "build", rstr "create", rstr "develop",
                rstr "code", rstr "write"], .wb],
    rseq [.wb, rstr "start ",
          ralt [rstr "implementing", rstr "building", rstr "coding",
                rstr "developing"], .wb] ]

/-- `PLANNING_PATTERNS` of custom-reminder.py: the orchestrator's first four
patterns (no `design a plan|map out|architect`). -/
def CR_PLANNING_PATTERNS : List Re :=
  [ rseq [.wb, ralt [rstr "make", rstr "create", rstr "develop", rstr "write",
                     rstr "build"], rdotstar, .wb, rstr "plan", .wb],
    rseq [.wb, rstr "plan", rspaces, ralt [rstr "out", rstr "for", rstr "the"], .wb],
    rseq [.wb, rstr "planning", rspaces, ralt [rstr "out", rstr "for", rstr "the"], .wb],
    rseq [.wb, ralt [rstr "implementation", rstr "feature", rstr "system",
                     rstr "architecture"], rspaces, rstr "plan", .wb] ]

/-- `PARALLEL_PATTERNS` of custom-reminder.py. -/
def CR_PARALLEL_PATTERNS : List Re :=
  [ rseq [.wb, ralt [rstr "parallel", rstr "parallelize", rstr "parallelization",
                     rstr "concurrently", rstr "simultaneously"], .wb],
    rseq [.wb, rstr "in parallel", .wb],
    rseq [.wb, rstr "at the same time", .wb],
    rseq [.wb, rstr "concurrent execution", .wb] ]

def cr_debug_prompt (env : GuideEnv) : Text :=
  wrapPrompt
    (lit "The user has mentioned a key word or phrase that triggers this reminder for macos debugging.")
    (lit "debugging-workflow") (load_debug_guide env)

def cr_investigation_prompt (env : GuideEnv) : Text :=
  wrapPrompt
    (lit "The user has mentioned a key word or phrase that triggers this reminder for macos investigation.")
    (lit "investigation-workflow") (load_investigation_guide env)

def cr_implementation_prompt (env : GuideEnv) : Text :=
  wrapPrompt
    (lit "The user has mentioned implementing or building a macos feature/component.")
    (lit "macos-implementation-best-practices") (load_implementation_guide env)

def cr_planning_prompt (env : GuideEnv) : Text :=
  wrapPrompt
    (lit "The user has mentioned creating or making a plan for macos development. Here\x27s some advice for making plans:")
    (lit "planning-workflow") (load_planning_guide env)

def cr_parallel_prompt (env : GuideEnv) : Text :=
  wrapPrompt
    (lit "The user has mentioned parallel execution or parallelization for development.")
    (lit "parallelization-guide") (load_parallel_guide env)

def crInstruction (trigger_names : List Text) : Text :=
  lit "<system-reminder>\nIMPORTANT: Immediately inform the user that the following reminder hooks were triggered:\n" ++
    joinSep (lit ", ") trigger_names ++
    lit "\n\nDisplay this to the user in a clear, visible format before proceeding with their request.\n</system-reminder>\n"

/-- The `triggered` list of `src/Library/macos/hooks/custom-reminder.py`
(lines 449-472): every matching category emits a block, with no session
dedup and no missing-guide gate (the loaders never return `None`). -/
def crTriggered (env : GuideEnv) (prompt : Text) : List (Text × Text) :=
  (if check_patterns prompt DEBUG_PATTERNS then
    [(lit "DEBUG", cr_debug_prompt env)] else []) ++
  (if check_patterns prompt INVESTIGATION_PATTERNS then
    [(lit "INVESTIGATION", cr_investigation_prompt env)] else []) ++
  (if check_patterns prompt CR_IMPLEMENTATION_PATTERNS then
    [(lit "IMPLEMENTATION", cr_implementation_prompt env)] else []) ++
  (if check_patterns prompt CR_PLANNING_PATTERNS then
    [(lit "PLANNING", cr_planning_prompt env)] else []) ++
  (if check_patterns prompt CR_PARALLEL_PATTERNS then
    [(lit "PARALLELIZATION", cr_parallel_prompt env)] else [])

def stepCustomReminder (env : GuideEnv) (prompt : Text) : StepResult :=
  let triggered := crTriggered env prompt
  if triggered.isEmpty then ⟨triggered, none, none⟩
  else
    ⟨triggered, none,
      some (crInstruction (triggered.map Prod.fst) :: triggered.map Prod.snd)⟩

end ClaudeHooks

namespace ClaudeHooks

/-!
## Metrics tracker (`src/hooks/metrics-tracker.py`)

The hook input's `tool_input` fields are read with `.get(key, "")`, so they
are modelled with the empty default applied; `tool_response` may be any
JSON value, and `stdout`/`stderr` are only read when it is a dict
(`none` models a non-dict value).
-/

structure ToolInput where
  command : Text := []
  old_string : Text := []
  new_string : Text := []
  content : Text := []

structure ToolResponse where
  stdout : Text := []
  stderr : Text := []

structure MetricsHookInput where
  tool_name : Text
  tool_input : ToolInput
  tool_response : Option ToolResponse

/-- The counter document of `~/.claude/monitoring/metrics-tracking.json`
(the `last_updated` timestamp, rewritten on every save, is omitted). -/
structure Metrics where
  commits_total : Nat
  lines_added : Nat
  lines_removed : Nat
  files_modified : Nat
  commands_blocked : Nat
  git_failures : Nat
  deriving DecidableEq

/-- `count_lines(text)`: `len(text.strip().split('\n'))` when the stripped
text is non-empty, else 0. -/
def count_lines (text : Text) : Nat :=
  let s := pyStrip text
  if s.isEmpty then 0 else s.countP (fun c => c == '\n') + 1

/-- `stdout`/`stderr` extraction (`tool_output.get(k, "") if isinstance(...)
else ""`). -/
def respStdout : Option ToolResponse → Text
  | none => []
  | some r => r.stdout

def respStderr : Option ToolResponse → Text
  | none => []
  | some r => r.stderr

/-- The counter-update logic of `main()` (metrics-tracker.py lines 76-126):
returns the updated record and the `updated` flag deciding whether the file
is rewritten. -/
def metricsUpdate (h : MetricsHookInput) (m : Metrics) : Metrics × Bool :=
  if h.tool_name = lit "Edit" then
    let m1 := { m with files_modified := m.files_modified + 1 }
    let old_lines := count_lines h.tool_input.old_string
    let new_lines := count_lines h.tool_input.new_string
    let m2 :=
      if new_lines > old_lines then
        { m1 with lines_added := m1.lines_added + (new_lines - old_lines) }
      else if old_lines > new_lines then
        { m1 with lines_removed := m1.lines_removed + (old_lines - new_lines) }
      else m1
    (m2, true)
  else if h.tool_name = lit "Write" then
    ({ m with files_modified := m.files_modified + 1,
              lines_added := m.lines_added + count_lines h.tool_input.content },
     true)
  else if h.tool_name = lit "Bash" then
    let command := h.tool_input.command
    let stdout := respStdout h.tool_response
    let stderr := respStderr h.tool_response
    if containsSub (lit "git commit") command then
      if !stdout.isEmpty &&
          (containsSub (lit "[") stdout ||
           containsSub (lit "create mode") (pyLower stdout)) then
        ({ m with commits_total := m.commits_total + 1 }, true)
      else if !stderr.isEmpty && containsSub (lit "error") (pyLower stderr) then
        ({ m with git_failures := m.git_failures + 1 }, true)
      else (m, false)
    else if pyStartsWith (lit "git ") command then
      if !stderr.isEmpty &&
          (containsSub (lit "error") (pyLower stderr) ||
           containsSub (lit "fatal") (pyLower stderr)) then
        ({ m with git_failures := m.git_failures + 1 }, true)
      else (m, false)
    else (m, false)
  else (m, false)

end ClaudeHooks
namespace ClaudeHooks

lemma countP_gateBlock_ne (a : List Text) (n x : Text) (m : Bool)
    (g : Option Text) (h : n ≠ x) :
    (gateBlock a n m g).countP (fun q => q.1 == x) = 0 := by
  cases g <;> unfold gateBlock optBlock <;> split_ifs <;>
    simp [List.countP_cons, h]

lemma countP_gateBlock_self (a : List Text) (x : Text) (m : Bool)
    (g : Option Text) :
    (gateBlock a x m g).countP (fun q => q.1 == x) =
      if x ∉ a ∧ m = true ∧ g.isSome then 1 else 0 := by
  cases g <;> unfold gateBlock optBlock <;> split_ifs <;> simp_all

lemma orch_countP_debug (env : GuideEnv) (p : Text) (a : List Text) :
    (orchestratorTriggered env p a).countP (fun q => q.1 == lit "DEBUG") =
      if lit "DEBUG" ∉ a ∧ check_patterns p DEBUG_PATTERNS = true ∧
          (get_debug_prompt env).isSome then 1 else 0 := by
  unfold orchestratorTriggered
  simp only [List.countP_append, countP_gateBlock_self,
    countP_gateBlock_ne _ _ _ _ _ (by decide : lit "FOUNDATION" ≠ lit "DEBUG"),
    countP_gateBlock_ne _ _ _ _ _ (by decide : lit "BRAINSTORMING" ≠ lit "DEBUG"),
    countP_gateBlock_ne _ _ _ _ _ (by decide : lit "DEEP_RESEARCH" ≠ lit "DEBUG"),
    countP_gateBlock_ne _ _ _ _ _ (by decide : lit "PLANNING" ≠ lit "DEBUG"),
    countP_gateBlock_ne _ _ _ _ _ (by decide : lit "IMPLEMENTATION" ≠ lit "DEBUG"),
    countP_gateBlock_ne _ _ _ _ _ (by decide : lit "INVESTIGATION" ≠ lit "DEBUG"),
    countP_gateBlock_ne _ _ _ _ _ (by decide : lit "PARALLEL" ≠ lit "DEBUG")]
  simp

lemma triggered_stepOrchestrator (env : GuideEnv) (p : Text) (a : List Text) :
    (stepOrchestrator env p a).triggered = orchestratorTriggered env p a := by
  simp only [stepOrchestrator]
  split <;> rfl

lemma saved_stepOrchestrator (env : GuideEnv) (p : Text) (a : List Text) :
    (stepOrchestrator env p a).saved =
      if (orchestratorTriggered env p a).isEmpty then none
      else some (a ++ ((orchestratorTriggered env p a).map Prod.fst).filter
        (fun n => !a.contains n)) := by
  simp only [stepOrchestrator]
  split <;> simp_all

lemma printed_stepOrchestrator (env : GuideEnv) (p : Text) (a : List Text) :
    (stepOrchestrator env p a).printed =
      if (orchestratorTriggered env p a).isEmpty then none
      else some (orchestratorInstruction
          ((orchestratorTriggered env p a).map Prod.fst) a
        :: (orchestratorTriggered env p a).map Prod.snd) := by
  simp only [stepOrchestrator]
  split <;> simp_all

lemma debugCount_step (env : GuideEnv) (p : Text) (a : List Text) :
    debugCount (stepOrchestrator env p a) =
      if lit "DEBUG" ∉ a ∧ check_patterns p DEBUG_PATTERNS = true ∧
          (get_debug_prompt env).isSome then 1 else 0 := by
  unfold debugCount
  rw [triggered_stepOrchestrator, orch_countP_debug]

lemma mem_map_fst_iff_countP (x : Text) (l : List (Text × Text)) :
    x ∈ l.map Prod.fst ↔ 0 < l.countP (fun q => q.1 == x) := by
  rw [List.countP_pos_iff]
  constructor
  · intro h
    rcases List.mem_map.mp h with ⟨q, hq, hfst⟩
    exact ⟨q, hq, by simp [hfst]⟩
  · rintro ⟨q, hq, hh⟩
    exact List.mem_map.mpr ⟨q, hq, by simpa using hh⟩

lemma debug_mem_nextInjected (env : GuideEnv) (p : Text) (a : List Text) :
    lit "DEBUG" ∈ nextInjected a (stepOrchestrator env p a) ↔
      lit "DEBUG" ∈ a ∨ (check_patterns p DEBUG_PATTERNS = true ∧
        (get_debug_prompt env).isSome) := by
  unfold nextInjected
  rw [saved_stepOrchestrator]
  by_cases he : (orchestratorTriggered env p a).isEmpty
  · rw [if_pos he, Option.getD_none]
    constructor
    · exact Or.inl
    · rintro (h | ⟨hc, hg⟩)
      · exact h
      · by_contra hmem
        have h1 := orch_countP_debug env p a
        rw [if_pos ⟨hmem, hc, hg⟩] at h1
        rw [List.isEmpty_iff] at he
        rw [he] at h1
        simp at h1
  · rw [if_neg (by simpa using he), Option.getD_some, List.mem_append,
      List.mem_filter]
    by_cases hmem : lit "DEBUG" ∈ a
    · simp [hmem]
    · have h2 := mem_map_fst_iff_countP (lit "DEBUG")
        (orchestratorTriggered env p a)
      rw [orch_countP_debug] at h2
      simp only [hmem, false_or]
      constructor
      · rintro ⟨hin, _⟩
        have h3 := h2.mp hin
        split_ifs at h3 with h4
        · exact ⟨h4.2.1, h4.2.2⟩
        · omega
      · rintro ⟨hc, hg⟩
        refine ⟨h2.mpr ?_, ?_⟩
        · rw [if_pos ⟨hmem, hc, hg⟩]; omega
        · simpa using hmem

end ClaudeHooks
namespace ClaudeHooks

lemma get_debug_prompt_isSome (env : GuideEnv) (c : Text)
    (hc : env (lit "debug") = some c) (hne : c ≠ []) :
    (get_debug_prompt env).isSome := by
  unfold get_debug_prompt genPrompt load_guide
  rw [hc]
  simp [List.isEmpty_iff, hne]

lemma runSeq_debug_marks (env : GuideEnv)
    (hg : (get_debug_prompt env).isSome) :
    ∀ (prompts : List Text) (a : List Text),
      (runSeq env prompts a).map debugCount =
        specDebugMarks prompts (decide (lit "DEBUG" ∈ a)) := by
  intro prompts
  induction prompts with
  | nil => intro a; rfl
  | cons p ps ih =>
    intro a
    simp only [runSeq, List.map_cons, specDebugMarks]
    congr 1
    · rw [debugCount_step]
      by_cases hmem : lit "DEBUG" ∈ a <;>
        by_cases hc : check_patterns p DEBUG_PATTERNS = true <;>
          simp [hmem, hc, hg]
    · rw [ih]
      congr 1
      have hmn := debug_mem_nextInjected env p a
      by_cases hmem : lit "DEBUG" ∈ a <;>
        by_cases hc : check_patterns p DEBUG_PATTERNS = true <;>
          simp [hmem, hc, hg] at hmn ⊢ <;> simp [hmn]

end ClaudeHooks
namespace ClaudeHooks

lemma mem_gateBlock (a : List Text) (name : Text) (m : Bool)
    (g : Option Text) (n t : Text) :
    (n, t) ∈ gateBlock a name m g ↔
      n = name ∧ name ∉ a ∧ m = true ∧ g = some t := by
  cases g <;> unfold gateBlock optBlock <;> split_ifs <;>
    simp_all [eq_comm]

lemma map_fst_gateBlock_sublist (a : List Text) (name : Text) (m : Bool)
    (g : Option Text) :
    ((gateBlock a name m g).map Prod.fst).Sublist [name] := by
  cases g <;> unfold gateBlock optBlock <;> split_ifs <;> simp

lemma orch_names_sublist (env : GuideEnv) (p : Text) (a : List Text) :
    ((orchestratorTriggered env p a).map Prod.fst).Sublist
      ORCHESTRATOR_ORDER := by
  unfold orchestratorTriggered ORCHESTRATOR_ORDER
  simp only [List.map_append]
  have h : ([lit "FOUNDATION", lit "BRAINSTORMING", lit "DEEP_RESEARCH",
      lit "PLANNING", lit "IMPLEMENTATION", lit "DEBUG", lit "INVESTIGATION",
      lit "PARALLEL"] : List Text) =
      [lit "FOUNDATION"] ++ [lit "BRAINSTORMING"] ++ [lit "DEEP_RESEARCH"] ++
      [lit "PLANNING"] ++ [lit "IMPLEMENTATION"] ++ [lit "DEBUG"] ++
      [lit "INVESTIGATION"] ++ [lit "PARALLEL"] := by rfl
  rw [h]
  exact ((((((((map_fst_gateBlock_sublist ..).append
    (map_fst_gateBlock_sublist ..)).append
    (map_fst_gateBlock_sublist ..)).append
    (map_fst_gateBlock_sublist ..)).append
    (map_fst_gateBlock_sublist ..)).append
    (map_fst_gateBlock_sublist ..)).append
    (map_fst_gateBlock_sublist ..)).append
    (map_fst_gateBlock_sublist ..))

lemma mem_orchestratorTriggered (env : GuideEnv) (p : Text) (a : List Text)
    (n t : Text) :
    (n, t) ∈ orchestratorTriggered env p a ↔
      (n = lit "FOUNDATION" ∧ lit "FOUNDATION" ∉ a ∧
        get_foundation_prompt env = some t) ∨
      (n = lit "BRAINSTORMING" ∧ lit "BRAINSTORMING" ∉ a ∧
        check_patterns p BRAINSTORMING_PATTERNS = true ∧
        get_brainstorming_prompt env = some t) ∨
      (n = lit "DEEP_RESEARCH" ∧ lit "DEEP_RESEARCH" ∉ a ∧
        check_patterns p DEEP_RESEARCH_PATTERNS = true ∧
        get_deep_research_prompt env = some t) ∨
      (n = lit "PLANNING" ∧ lit "PLANNING" ∉ a ∧
        check_patterns p PLANNING_PATTERNS = true ∧
        get_planning_prompt env = some t) ∨
      (n = lit "IMPLEMENTATION" ∧ lit "IMPLEMENTATION" ∉ a ∧
        check_patterns p IMPLEMENTATION_PATTERNS = true ∧
        get_implementation_prompt env = some t) ∨
      (n = lit "DEBUG" ∧ lit "DEBUG" ∉ a ∧
        check_patterns p DEBUG_PATTERNS = true ∧
        get_debug_prompt env = some t) ∨
      (n = lit "INVESTIGATION" ∧ lit "INVESTIGATION" ∉ a ∧
        check_patterns p INVESTIGATION_PATTERNS = true ∧
        get_investigation_prompt env = some t) ∨
      (n = lit "PARALLEL" ∧ lit "PARALLEL" ∉ a ∧
        check_patterns p PARALLEL_PATTERNS = true ∧
        get_parallel_prompt env = some t) := by
  unfold orchestratorTriggered
  simp only [List.mem_append, mem_gateBlock, eq_self_iff_true, true_and,
    or_assoc]

end ClaudeHooks
namespace ClaudeHooks

lemma splitLines_cons (c : Char) (rest : Text) :
    splitLines (c :: rest) =
      if c = '\n' then [] :: splitLines rest
      else
        match splitLines rest with
        | [] => [[c]]
        | l :: ls => (c :: l) :: ls := rfl

lemma splitLines_ne_nil (s : Text) : splitLines s ≠ [] := by
  cases s with
  | nil => simp [splitLines]
  | cons c rest =>
    rw [splitLines_cons]
    split <;> simp_all
    split <;> simp

lemma splitLines_append (xs ys : Text) :
    splitLines (xs ++ '\n' :: ys) = splitLines xs ++ splitLines ys := by
  induction xs with
  | nil =>
    simp only [List.nil_append]
    rw [splitLines_cons, if_pos rfl]
    rfl
  | cons c rest ih =>
    by_cases hc : c = '\n'
    · subst hc
      rw [List.cons_append, splitLines_cons, splitLines_cons, if_pos rfl,
        if_pos rfl, ih]
      simp
    · rw [List.cons_append, splitLines_cons, splitLines_cons, if_neg hc,
        if_neg hc, ih]
      cases h2 : splitLines rest with
      | nil => exact absurd h2 (splitLines_ne_nil rest)
      | cons l ls => simp

lemma mem_splitLines_no_newline (s : Text) :
    ∀ l ∈ splitLines s, '\n' ∉ l := by
  induction s with
  | nil =>
    intro l hl
    simp [splitLines] at hl
    simp [hl]
  | cons c rest ih =>
    intro l hl
    rw [splitLines_cons] at hl
    split_ifs at hl with hc
    · rcases List.mem_cons.mp hl with rfl | h
      · simp
      · exact ih l h
    · cases h2 : splitLines rest with
      | nil =>
        rw [h2] at hl
        simp at hl
        subst hl
        simp only [List.mem_singleton]
        exact fun e => hc e.symm
      | cons x xs =>
        rw [h2] at hl
        rcases List.mem_cons.mp hl with rfl | h
        · have hx : '\n' ∉ x := ih x (by rw [h2]; exact List.mem_cons_self x xs)
          simp only [List.mem_cons]
          rintro (e | e)
          · exact hc e.symm
          · exact hx e
        · exact ih l (by rw [h2]; exact List.mem_cons_of_mem x h)

lemma splitLines_no_newline (s : Text) (h : '\n' ∉ s) : splitLines s = [s] := by
  induction s with
  | nil => rfl
  | cons c rest ih =>
    have hc : c ≠ '\n' := by
      intro e
      exact h (by rw [e]; exact List.mem_cons_self '\n' rest)
    have hr : '\n' ∉ rest := fun hm => h (List.mem_cons_of_mem c hm)
    rw [splitLines_cons, if_neg hc, ih hr]

lemma splitLines_joinNL (ls : List Text) (h : ∀ l ∈ ls, '\n' ∉ l) :
    splitLines (joinNL ls) = ls ++ [[]] := by
  induction ls with
  | nil => rfl
  | cons l rest ih =>
    unfold joinNL
    rw [splitLines_append, splitLines_no_newline l (h l (List.mem_cons_self l rest)),
      ih (fun x hx => h x (List.mem_cons_of_mem l hx))]
    simp

lemma gitignorePatterns_append (xs ys : Text) :
    gitignorePatterns (xs ++ '\n' :: ys) =
      gitignorePatterns xs ++ gitignorePatterns ys := by
  unfold gitignorePatterns
  rw [splitLines_append, List.filterMap_append]

lemma gitignorePatterns_cons_newline (z : Text) :
    gitignorePatterns ('\n' :: z) = gitignorePatterns z := by
  unfold gitignorePatterns
  rw [splitLines_cons, if_pos rfl]
  rw [List.filterMap_cons]
  simp [gitignoreLineFilter, pyStrip, pyLStrip, pyRStrip]

lemma containsSub_append_right (n xs ys : Text)
    (h : containsSub n ys = true) : containsSub n (xs ++ ys) = true := by
  induction xs with
  | nil => simpa
  | cons x l ih =>
    simp only [List.cons_append, containsSub, List.tails_cons, List.any_cons]
    simp only [containsSub] at ih
    rw [ih]
    simp

end ClaudeHooks
namespace ClaudeHooks

lemma newPatterns_self_nil (t : Text) : newPatterns t t = [] := by
  unfold newPatterns
  rw [List.filter_eq_nil_iff]
  intro p hp
  simp [hp]

lemma mem_newPatterns (t c p : Text) :
    p ∈ newPatterns t c ↔
      p ∈ gitignorePatterns t ∧ p ∉ gitignorePatterns c := by
  unfold newPatterns
  rw [List.mem_filter]
  simp

/-- The lines the merge branch appends are lines of the template, hence
newline-free. -/
lemma appendedGitignoreLines_no_newline (t c : Text) :
    ∀ l ∈ appendedGitignoreLines t c, '\n' ∉ l := by
  intro l hl
  unfold appendedGitignoreLines at hl
  exact mem_splitLines_no_newline t l (List.mem_of_mem_filter hl)

/-- Every new pattern appears among the appended lines' pattern set. -/
lemma newPatterns_subset_appended (t c p : Text)
    (hp : p ∈ newPatterns t c) :
    p ∈ (appendedGitignoreLines t c).filterMap gitignoreLineFilter := by
  have hpt : p ∈ gitignorePatterns t := ((mem_newPatterns t c p).mp hp).1
  unfold gitignorePatterns at hpt
  rcases List.mem_filterMap.mp hpt with ⟨l, hl, hf⟩
  refine List.mem_filterMap.mpr ⟨l, ?_, hf⟩
  unfold appendedGitignoreLines
  refine List.mem_filter.mpr ⟨hl, ?_⟩
  unfold gitignoreLineFilter at hf
  by_cases hcnd : (!(pyStrip l).isEmpty && !pyStartsWith (lit "#") (pyStrip l)) = true
  · rw [if_pos hcnd] at hf
    have hps : pyStrip l = p := by simpa using hf
    simp only [hcnd]
    rw [hps]
    simp only [if_pos]
    simp [hp]
  · rw [if_neg hcnd] at hf
    exact absurd hf (by simp)

/-- After a merge, the merged `.gitignore` covers every template pattern, so
a second run finds no new patterns. -/
lemma newPatterns_after_merge (t c : Text) :
    newPatterns t
      (c ++ lit "\n\n# Added by /init-workspace\n" ++
        joinNL (appendedGitignoreLines t c)) = [] := by
  unfold newPatterns
  rw [List.filter_eq_nil_iff]
  intro p hp
  simp only [Bool.not_eq_true']
  rw [Bool.not_eq_false]
  have hmem : p ∈ gitignorePatterns
      (c ++ lit "\n\n# Added by /init-workspace\n" ++
        joinNL (appendedGitignoreLines t c)) := by
    have hdec : (c ++ lit "\n\n# Added by /init-workspace\n" ++
        joinNL (appendedGitignoreLines t c)) =
        c ++ '\n' :: ('\n' :: (lit "# Added by /init-workspace" ++
          '\n' :: joinNL (appendedGitignoreLines t c))) := by
      simp [lit]
    rw [hdec, gitignorePatterns_append, gitignorePatterns_cons_newline,
      gitignorePatterns_append]
    by_cases hpc : p ∈ gitignorePatterns c
    · exact List.mem_append.mpr (Or.inl hpc)
    · refine List.mem_append.mpr (Or.inr (List.mem_append.mpr (Or.inr ?_)))
      have hjoin : gitignorePatterns (joinNL (appendedGitignoreLines t c)) =
          (appendedGitignoreLines t c).filterMap gitignoreLineFilter := by
        unfold gitignorePatterns
        rw [splitLines_joinNL _ (appendedGitignoreLines_no_newline t c)]
        rw [List.filterMap_append]
        simp [gitignoreLineFilter, pyStrip, pyLStrip, pyRStrip]
      rw [hjoin]
      exact newPatterns_subset_appended t c p
        ((mem_newPatterns t c p).mpr ⟨hp, hpc⟩)
  simpa using hmem

/-- `setup_gitignore` is idempotent: a second run over the file produced by
a first run changes nothing. -/
lemma setup_gitignore_idem (template existing : Option Text) :
    setup_gitignore template (some (setup_gitignore template existing)) =
      setup_gitignore template existing := by
  cases template with
  | none =>
    cases existing with
    | none => decide
    | some c =>
      by_cases h : containsSub (lit ".worktrees") c = true
      · have h1 : setup_gitignore none (some c) = c := by
          simp only [setup_gitignore]
          rw [if_pos h]
        rw [h1, h1]
      · have h1 : setup_gitignore none (some c) = c ++ lit "\n.worktrees/\n" := by
          simp only [setup_gitignore]
          rw [if_neg (by simp [h])]
        have h2 : containsSub (lit ".worktrees") (c ++ lit "\n.worktrees/\n") = true :=
          containsSub_append_right _ _ _ (by decide)
        have h3 : setup_gitignore none (some (c ++ lit "\n.worktrees/\n")) =
            c ++ lit "\n.worktrees/\n" := by
          simp only [setup_gitignore]
          rw [if_pos h2]
        rw [h1, h3]
  | some t =>
    cases existing with
    | none =>
      have h2 : setup_gitignore (some t) (some t) = t := by
        simp only [setup_gitignore]
        rw [if_pos (by rw [newPatterns_self_nil]; rfl)]
      exact h2
    | some c =>
      by_cases h : (newPatterns t c).isEmpty = true
      · have h1 : setup_gitignore (some t) (some c) = c := by
          simp only [setup_gitignore]
          rw [if_pos h]
        rw [h1, h1]
      · have h1 : setup_gitignore (some t) (some c) =
            c ++ lit "\n\n# Added by /init-workspace\n" ++
              joinNL (appendedGitignoreLines t c) := by
          simp only [setup_gitignore]
          rw [if_neg h]
        have h3 : setup_gitignore (some t)
            (some (c ++ lit "\n\n# Added by /init-workspace\n" ++
              joinNL (appendedGitignoreLines t c))) =
            c ++ lit "\n\n# Added by /init-workspace\n" ++
              joinNL (appendedGitignoreLines t c) := by
          simp only [setup_gitignore]
          rw [if_pos (by rw [newPatterns_after_merge]; rfl)]
        rw [h1, h3]
end ClaudeHooks
namespace ClaudeHooks

lemma metricsUpdate_mono (h : MetricsHookInput) (m : Metrics) :
    m.commits_total ≤ (metricsUpdate h m).1.commits_total ∧
    m.lines_added ≤ (metricsUpdate h m).1.lines_added ∧
    m.lines_removed ≤ (metricsUpdate h m).1.lines_removed ∧
    m.files_modified ≤ (metricsUpdate h m).1.files_modified ∧
    m.commands_blocked ≤ (metricsUpdate h m).1.commands_blocked ∧
    m.git_failures ≤ (metricsUpdate h m).1.git_failures := by
  unfold metricsUpdate
  by_cases h1 : h.tool_name = lit "Edit"
  · rw [if_pos h1]
    dsimp only
    split_ifs <;> simp
  · rw [if_neg h1]
    by_cases h2 : h.tool_name = lit "Write"
    · rw [if_pos h2]
      simp
    · rw [if_neg h2]
      by_cases h3 : h.tool_name = lit "Bash"
      · rw [if_pos h3]
        dsimp only
        split_ifs <;> simp
      · rw [if_neg h3]
        simp

lemma metricsUpdate_edit (h : MetricsHookInput) (m : Metrics)
    (he : h.tool_name = lit "Edit") :
    (metricsUpdate h m).1.lines_added =
      m.lines_added +
        (count_lines h.tool_input.new_string -
          count_lines h.tool_input.old_string) ∧
    (metricsUpdate h m).1.lines_removed =
      m.lines_removed +
        (count_lines h.tool_input.old_string -
          count_lines h.tool_input.new_string) := by
  unfold metricsUpdate
  rw [if_pos he]
  dsimp only
  split_ifs <;> simp <;> omega

lemma triggered_stepLibrary (env : GuideEnv) (p : Text) (a : List Text) :
    (stepLibraryOrchestrator env p a).triggered = libraryTriggered env p a := by
  simp only [stepLibraryOrchestrator]
  split <;> rfl

lemma lib_countP_debug (env : GuideEnv) (p : Text) (a : List Text) :
    (libraryTriggered env p a).countP (fun q => q.1 == lit "DEBUG") =
      if lit "DEBUG" ∉ a ∧ check_patterns p DEBUG_PATTERNS = true ∧
          (get_debug_prompt env).isSome then 1 else 0 := by
  unfold libraryTriggered
  simp only [List.countP_append, countP_gateBlock_self,
    countP_gateBlock_ne _ _ _ _ _ (by decide : lit "FOUNDATION" ≠ lit "DEBUG"),
    countP_gateBlock_ne _ _ _ _ _ (by decide : lit "BRAINSTORMING" ≠ lit "DEBUG"),
    countP_gateBlock_ne _ _ _ _ _ (by decide : lit "DEEP_RESEARCH" ≠ lit "DEBUG"),
    countP_gateBlock_ne _ _ _ _ _ (by decide : lit "PLANNING" ≠ lit "DEBUG"),
    countP_gateBlock_ne _ _ _ _ _ (by decide : lit "IMPLEMENTATION" ≠ lit "DEBUG"),
    countP_gateBlock_ne _ _ _ _ _ (by decide : lit "INVESTIGATION" ≠ lit "DEBUG")]
  simp

lemma create_domain_marker_rerun (existing : Option DomainConfig)
    (t1 t2 d : Text) (cfg : Option ConfigState) :
    create_domain_marker (some (create_domain_marker existing t1 d cfg)) t2 d cfg =
      { create_domain_marker existing t1 d cfg with last_updated := t2 } := by
  cases cfg <;> cases existing <;> rfl

lemma installDomainFiles_idem (lib w : Text → Option Text) :
    installDomainFiles lib (installDomainFiles lib w) =
      installDomainFiles lib w := by
  funext p
  unfold installDomainFiles
  split_ifs <;> rfl

end ClaudeHooks
namespace ClaudeHooks

/-- C1 (counterexample): the claim fails on the top-level
`src/hooks/workflow-orchestrator.py`: its `get_injected_guides` has no
freshness window, so a session cache file far older than the 4-hour
`SESSION_TIMEOUT` (here `mtime = 0` read at time 100000) is still consulted,
and a previously recorded DEBUG guide is NOT injected again on a
debug-matching prompt even though the guide file exists. -/
theorem claim_C1_counterexample :
    SESSION_TIMEOUT ≤ 100000 - (SessionFile.mk 0 (some [lit "DEBUG"])).mtime ∧
    get_injected_guides (some ⟨0, some [lit "DEBUG"]⟩) = [lit "DEBUG"] ∧
    debugCount (stepOrchestrator
      (fun n => if n = lit "debug" then some (lit "x") else none)
      (lit "debug") (get_injected_guides (some ⟨0, some [lit "DEBUG"]⟩))) = 0 := by
  refine ⟨by decide, rfl, by decide⟩

/-- C1 (amended): in the `src/Library/macos/hooks/workflow-orchestrator.py`
variant, a session cache file whose modification time is at least
`SESSION_TIMEOUT` (4 hours) old is treated as absent — the injected set
reads as empty — so a guide recorded in it (e.g. DEBUG) is injected again on
the next matching prompt with the guide file present; the top-level
`src/hooks` variant has no such freshness window (see the counterexample). -/
theorem claim_C1_amended (now : Int) (f : SessionFile) (env : GuideEnv)
    (p c : Text)
    (hstale : SESSION_TIMEOUT ≤ now - f.mtime)
    (hc : env (lit "debug") = some c) (hne : c ≠ [])
    (hm : check_patterns p DEBUG_PATTERNS = true) :
    get_injected_guides_library now (some f) = [] ∧
    debugCount (stepLibraryOrchestrator env p
      (get_injected_guides_library now (some f))) = 1 := by
  have hempty : get_injected_guides_library now (some f) = [] := by
    simp only [get_injected_guides_library]
    rw [if_neg (by omega)]
  refine ⟨hempty, ?_⟩
  rw [hempty]
  unfold debugCount
  rw [triggered_stepLibrary, lib_countP_debug]
  rw [if_pos ⟨by simp, hm, get_debug_prompt_isSome env c hc hne⟩]

/-- C1 (witness): the amended statement at a concrete stale file. -/
theorem claim_C1_witness :
    get_injected_guides_library 100000 (some ⟨0, some [lit "DEBUG"]⟩) = [] ∧
    debugCount (stepLibraryOrchestrator
      (fun n => if n = lit "debug" then some (lit "x") else none)
      (lit "debug")
      (get_injected_guides_library 100000 (some ⟨0, some [lit "DEBUG"]⟩))) = 1 :=
  claim_C1_amended 100000 ⟨0, some [lit "DEBUG"]⟩
    (fun n => if n = lit "debug" then some (lit "x") else none)
    (lit "debug") (lit "x") (by decide) (by decide) (by decide) (by decide)

/-- C2: a Bash hook event whose command contains "git commit" and whose
response stdout contains "[" increments `commits_total` by exactly one and
leaves `git_failures` unchanged. -/
theorem claim_C2 (h : MetricsHookInput) (m : Metrics)
    (hname : h.tool_name = lit "Bash")
    (hcmd : containsSub (lit "git commit") h.tool_input.command = true)
    (hout : containsSub (lit "[") (respStdout h.tool_response) = true) :
    (metricsUpdate h m).1.commits_total = m.commits_total + 1 ∧
    (metricsUpdate h m).1.git_failures = m.git_failures := by
  have hnonempty : respStdout h.tool_response ≠ [] := by
    intro he
    rw [he] at hout
    exact absurd hout (by decide)
  have hcond : (!(respStdout h.tool_response).isEmpty &&
      (containsSub (lit "[") (respStdout h.tool_response) ||
        containsSub (lit "create mode")
          (pyLower (respStdout h.tool_response)))) = true := by
    rw [hout]
    simp [List.isEmpty_iff, hnonempty]
  unfold metricsUpdate
  rw [hname]
  rw [if_neg (by decide), if_neg (by decide), if_pos rfl]
  dsimp only
  rw [if_pos hcmd, if_pos hcond]
  exact ⟨rfl, rfl⟩

/-- C2 (witness): the theorem at a concrete successful `git commit` event. -/
theorem claim_C2_witness :
    (metricsUpdate
      ⟨lit "Bash", ⟨lit "git commit -m x", [], [], []⟩,
        some ⟨lit "[main abc1234] x", []⟩⟩
      ⟨5, 2, 3, 4, 0, 7⟩).1.commits_total = 5 + 1 ∧
    (metricsUpdate
      ⟨lit "Bash", ⟨lit "git commit -m x", [], [], []⟩,
        some ⟨lit "[main abc1234] x", []⟩⟩
      ⟨5, 2, 3, 4, 0, 7⟩).1.git_failures = 7 :=
  claim_C2 _ _ rfl (by decide) (by decide)

/-- C3 (counterexample): as stated the claim fails when the workspace debug
guide file is absent: the prompt matches a debug trigger, yet the debug
block appears zero times in the session, not exactly once. -/
theorem claim_C3_counterexample :
    check_patterns (lit "debug the crash") DEBUG_PATTERNS = true ∧
    (runSeq (fun _ => none) [lit "debug the crash"] []).map debugCount = [0] := by
  exact ⟨by decide, by decide⟩

/-- C3 (amended): provided the workspace debug guide file exists with
non-empty content, over any sequence of prompts in a fresh session the DEBUG
block is printed exactly on the first prompt matching a debug-trigger regex
and on no other prompt (`specDebugMarks` is that specification). -/
theorem claim_C3_amended (env : GuideEnv) (c : Text)
    (hc : env (lit "debug") = some c) (hne : c ≠ [])
    (prompts : List Text) :
    (runSeq env prompts []).map debugCount = specDebugMarks prompts false := by
  have h := runSeq_debug_marks env
    (get_debug_prompt_isSome env c hc hne) prompts []
  simpa using h

/-- C3 (witness): with the debug guide present, of two debug-matching
prompts only the first injects the DEBUG block. -/
theorem claim_C3_witness :
    (runSeq (fun n => if n = lit "debug" then some (lit "g") else none)
      [lit "fix the bug", lit "another bug"] []).map debugCount = [1, 0] := by
  have h := claim_C3_amended
    (fun n => if n = lit "debug" then some (lit "g") else none)
    (lit "g") (by decide) (by decide) [lit "fix the bug", lit "another bug"]
  rw [h]
  decide

end ClaudeHooks
namespace ClaudeHooks

/-- C4 (counterexample): re-running the scaffolder is NOT free of file
differences: `create_domain_marker` rewrites `domain.json` with a fresh
`last_updated` timestamp, so the marker written by the second run differs
from the one written by the first. -/
theorem claim_C4_counterexample :
    create_domain_marker
        (some (create_domain_marker none (lit "2026-01-01T00:00:00Z")
          (lit "webdev") none))
        (lit "2026-01-02T00:00:00Z") (lit "webdev") none ≠
      create_domain_marker none (lit "2026-01-01T00:00:00Z")
        (lit "webdev") none := by
  decide

/-- C4 (amended): re-running init-workspace against the same target with the
same domain reproduces identical content everywhere except `domain.json`:
the domain folders are cleaned and re-copied from the unchanged library
(idempotent), the `.gitignore` merge is idempotent, but the domain marker is
rewritten with the new run's `last_updated` timestamp, all other marker
fields preserved. -/
theorem claim_C4_amended :
    (∀ (existing : Option DomainConfig) (t1 t2 d : Text)
        (cfg : Option ConfigState),
      create_domain_marker (some (create_domain_marker existing t1 d cfg))
          t2 d cfg =
        { create_domain_marker existing t1 d cfg with last_updated := t2 }) ∧
    (∀ (template existing : Option Text),
      setup_gitignore template (some (setup_gitignore template existing)) =
        setup_gitignore template existing) ∧
    (∀ (lib w : Text → Option Text),
      installDomainFiles lib (installDomainFiles lib w) =
        installDomainFiles lib w) :=
  ⟨create_domain_marker_rerun, setup_gitignore_idem, installDomainFiles_idem⟩

/-- C5: a workspace with no Xcode project or workspace, a non-empty
`RealityKitContent` glob and Swift files is detected as `visionos`
(not `ios`). -/
theorem claim_C5 (fs : WorkspaceFS)
    (hxcodeproj : fs.glob (lit "**/*.xcodeproj") = [])
    (hxcworkspace : fs.glob (lit "**/*.xcworkspace") = [])
    (hrk : fs.glob (lit "**/RealityKitContent/**") ≠ [])
    (hswift : fs.glob (lit "**/*.swift") ≠ []) :
    detect_domain fs = lit "visionos" := by
  have hv : visStrongLoop fs VISIONOS_STRONG_GLOBS = true := by
    unfold VISIONOS_STRONG_GLOBS
    unfold visStrongLoop
    rw [hxcodeproj]
    simp only [List.isEmpty_nil, if_true]
    unfold visStrongLoop
    rw [hxcworkspace]
    simp only [List.isEmpty_nil, if_true]
    unfold visStrongLoop
    rw [if_neg (by simpa [List.isEmpty_iff] using hrk)]
    rw [if_pos (by decide)]
  unfold detect_domain
  rw [if_pos hv]

/-- C5 (witness): the theorem at a concrete workspace holding only a Swift
file and a RealityKitContent directory. -/
theorem claim_C5_witness :
    detect_domain
      { glob := fun pat =>
          if pat = lit "**/RealityKitContent/**" then
            [lit "App/RealityKitContent"]
          else if pat = lit "**/*.swift" then [lit "App/App.swift"]
          else [],
        read := fun _ => none,
        existsAt := fun _ => false } = lit "visionos" :=
  claim_C5 _ (by decide) (by decide) (by decide) (by decide)

/-- C6 (counterexample): the workflow-orchestrator does NOT fall back to a
hard-coded constant: with every guide file absent and a debug-matching
prompt it prints nothing at all — the category's block is omitted. -/
theorem claim_C6_counterexample :
    check_patterns (lit "why is this not working") DEBUG_PATTERNS = true ∧
    (stepOrchestrator (fun _ => none) (lit "why is this not working")
      []).printed = none := by
  exact ⟨by decide, by decide⟩

/-- C6 (amended): the fallback-to-constant behaviour belongs to the
custom-reminder hook: with the debug guide file absent and a debug-matching
prompt it still emits the DEBUG block, built from the baked-in
`DEBUG_PROMPT_FALLBACK`; the workflow-orchestrator instead omits the DEBUG
block entirely when the guide file is absent. -/
theorem claim_C6_amended (env : GuideEnv) (p : Text) (a : List Text)
    (habsent : env (lit "debug") = none)
    (hm : check_patterns p DEBUG_PATTERNS = true) :
    (lit "DEBUG", cr_debug_prompt env) ∈ crTriggered env p ∧
    cr_debug_prompt env =
      wrapPrompt
        (lit "The user has mentioned a key word or phrase that triggers this reminder for macos debugging.")
        (lit "debugging-workflow") DEBUG_PROMPT_FALLBACK ∧
    debugCount (stepOrchestrator env p a) = 0 := by
  refine ⟨?_, ?_, ?_⟩
  · unfold crTriggered
    apply List.mem_append.mpr
    left
    rw [if_pos hm]
    simp
  · unfold cr_debug_prompt load_debug_guide
    rw [habsent]
    rfl
  · rw [debugCount_step]
    rw [if_neg]
    rintro ⟨_, _, hg⟩
    unfold get_debug_prompt genPrompt load_guide at hg
    rw [habsent] at hg
    simp at hg

/-- C6 (witness): the amended statement on a concrete debug-matching prompt
with no guide files. -/
theorem claim_C6_witness :
    (lit "DEBUG", cr_debug_prompt (fun _ => none)) ∈
      crTriggered (fun _ => none) (lit "debug this") ∧
    cr_debug_prompt (fun _ => none) =
      wrapPrompt
        (lit "The user has mentioned a key word or phrase that triggers this reminder for macos debugging.")
        (lit "debugging-workflow") DEBUG_PROMPT_FALLBACK ∧
    debugCount (stepOrchestrator (fun _ => none) (lit "debug this") []) = 0 :=
  claim_C6_amended (fun _ => none) (lit "debug this") [] rfl (by decide)

end ClaudeHooks
namespace ClaudeHooks

/-- C7 (counterexample): not every hook script exits 1 with a stderr message
on malformed JSON: the metrics tracker swallows it and exits 0, printing
nothing. -/
theorem claim_C7_counterexample :
    metricsParseExit .invalidJson = some (0, false) ∧
    metricsParseExit .invalidJson ≠ some (1, true) := by
  decide

/-- C7 (amended): on malformed stdin JSON the workflow-orchestrator /
custom-reminder / unified hooks print an error to stderr and exit 1, and
git-hook exits 1 via an uncaught traceback, but the metrics tracker and the
parallel hook swallow it and exit 0 with no stderr message; after a
successful parse every script runs to `sys.exit(0)`. -/
theorem claim_C7_amended :
    orchestratorParseExit .invalidJson = some (1, true) ∧
    gitHookParseExit .invalidJson = some (1, true) ∧
    metricsParseExit .invalidJson = some (0, false) ∧
    metricsParseExit .blank = some (0, false) ∧
    parallelParseExit .invalidJson = some (0, false) ∧
    orchestratorParseExit .valid = none ∧
    orchestratorExitCode .valid = 0 ∧
    metricsExitCode .invalidJson = 0 ∧
    metricsExitCode .valid = 0 := by
  decide

/-- C8 (counterexample): the printed set of blocks is NOT exactly the set of
matching not-yet-injected categories: here INVESTIGATION matches and is not
injected, but no block is emitted because its guide file is absent. -/
theorem claim_C8_counterexample :
    check_patterns (lit "investigate") INVESTIGATION_PATTERNS = true ∧
    lit "INVESTIGATION" ∉ ([] : List Text) ∧
    (stepOrchestrator (fun _ => none) (lit "investigate") []).triggered
      = [] := by
  exact ⟨by decide, by decide, by decide⟩

/-- C8 (amended): the triggered blocks are exactly the not-yet-injected
categories whose patterns match (FOUNDATION always matches) AND whose guide
file loads with non-empty content; their names appear in the fixed
declaration order foundation, brainstorming, deep research, planning,
implementation, debug, investigation, parallel; and the printed output is
the announcement instruction followed by those blocks in that order. -/
theorem claim_C8_amended (env : GuideEnv) (p : Text) (a : List Text) :
    ((stepOrchestrator env p a).triggered.map Prod.fst).Sublist
        ORCHESTRATOR_ORDER ∧
    (∀ n t : Text,
      (n, t) ∈ (stepOrchestrator env p a).triggered ↔
        (n = lit "FOUNDATION" ∧ lit "FOUNDATION" ∉ a ∧
          get_foundation_prompt env = some t) ∨
        (n = lit "BRAINSTORMING" ∧ lit "BRAINSTORMING" ∉ a ∧
          check_patterns p BRAINSTORMING_PATTERNS = true ∧
          get_brainstorming_prompt env = some t) ∨
        (n = lit "DEEP_RESEARCH" ∧ lit "DEEP_RESEARCH" ∉ a ∧
          check_patterns p DEEP_RESEARCH_PATTERNS = true ∧
          get_deep_research_prompt env = some t) ∨
        (n = lit "PLANNING" ∧ lit "PLANNING" ∉ a ∧
          check_patterns p PLANNING_PATTERNS = true ∧
          get_planning_prompt env = some t) ∨
        (n = lit "IMPLEMENTATION" ∧ lit "IMPLEMENTATION" ∉ a ∧
          check_patterns p IMPLEMENTATION_PATTERNS = true ∧
          get_implementation_prompt env = some t) ∨
        (n = lit "DEBUG" ∧ lit "DEBUG" ∉ a ∧
          check_patterns p DEBUG_PATTERNS = true ∧
          get_debug_prompt env = some t) ∨
        (n = lit "INVESTIGATION" ∧ lit "INVESTIGATION" ∉ a ∧
          check_patterns p INVESTIGATION_PATTERNS = true ∧
          get_investigation_prompt env = some t) ∨
        (n = lit "PARALLEL" ∧ lit "PARALLEL" ∉ a ∧
          check_patterns p PARALLEL_PATTERNS = true ∧
          get_parallel_prompt env = some t)) ∧
    (stepOrchestrator env p a).printed =
      (if (orchestratorTriggered env p a).isEmpty then none
       else some (orchestratorInstruction
           ((orchestratorTriggered env p a).map Prod.fst) a
         :: (orchestratorTriggered env p a).map Prod.snd)) := by
  refine ⟨?_, ?_, printed_stepOrchestrator env p a⟩
  · rw [triggered_stepOrchestrator]
    exact orch_names_sublist env p a
  · intro n t
    rw [triggered_stepOrchestrator]
    exact mem_orchestratorTriggered env p a n t

/-- C9: every metrics-tracker update leaves each of the six counters at
least its previous value, and an Edit event adds exactly the line-count
difference to `lines_added` (when new has more lines) or to `lines_removed`
(when old has more), and to neither when the counts are equal — stated with
truncated subtraction, which covers all three cases. -/
theorem claim_C9 (h : MetricsHookInput) (m : Metrics) :
    (m.commits_total ≤ (metricsUpdate h m).1.commits_total ∧
     m.lines_added ≤ (metricsUpdate h m).1.lines_added ∧
     m.lines_removed ≤ (metricsUpdate h m).1.lines_removed ∧
     m.files_modified ≤ (metricsUpdate h m).1.files_modified ∧
     m.commands_blocked ≤ (metricsUpdate h m).1.commands_blocked ∧
     m.git_failures ≤ (metricsUpdate h m).1.git_failures) ∧
    (h.tool_name = lit "Edit" →
      (metricsUpdate h m).1.lines_added =
        m.lines_added +
          (count_lines h.tool_input.new_string -
            count_lines h.tool_input.old_string) ∧
      (metricsUpdate h m).1.lines_removed =
        m.lines_removed +
          (count_lines h.tool_input.old_string -
            count_lines h.tool_input.new_string)) :=
  ⟨metricsUpdate_mono h m, fun he => metricsUpdate_edit h m he⟩

/-- C9 (witness): the Edit clause at a concrete edit growing 1 line to 3. -/
theorem claim_C9_witness :
    (metricsUpdate ⟨lit "Edit", ⟨[], lit "a", lit "a\nb\nc", []⟩, none⟩
      ⟨1, 2, 3, 4, 5, 6⟩).1.lines_added = 2 + (3 - 1) ∧
    (metricsUpdate ⟨lit "Edit", ⟨[], lit "a", lit "a\nb\nc", []⟩, none⟩
      ⟨1, 2, 3, 4, 5, 6⟩).1.lines_removed = 3 + (1 - 3) :=
  (claim_C9 ⟨lit "Edit", ⟨[], lit "a", lit "a\nb\nc", []⟩, none⟩
    ⟨1, 2, 3, 4, 5, 6⟩).2 rfl

/-- C10: when no guide is triggered the orchestrator prints nothing and does
not write the session file. -/
theorem claim_C10 (env : GuideEnv) (p : Text) (a : List Text)
    (h : (stepOrchestrator env p a).triggered = []) :
    (stepOrchestrator env p a).printed = none ∧
    (stepOrchestrator env p a).saved = none := by
  rw [triggered_stepOrchestrator] at h
  rw [printed_stepOrchestrator, saved_stepOrchestrator, h]
  exact ⟨rfl, rfl⟩

/-- C10 (witness): a prompt matching nothing, with no guide files, prints
nothing and leaves the session file untouched. -/
theorem claim_C10_witness :
    (stepOrchestrator (fun _ => none) (lit "hello there") []).printed
      = none ∧
    (stepOrchestrator (fun _ => none) (lit "hello there") []).saved
      = none :=
  claim_C10 (fun _ => none) (lit "hello there") [] (by decide)

end ClaudeHooks
